import Mathlib

/-!
Verification of the gang-sheet design application core: the geometry kernel
(oriented corners, separating-axis overlap test), the snapshot history manager,
the selection / multi-drag synchronizer, and the server-side export compositor.
Coordinates are modelled as rationals; the trigonometric parts of the geometry
kernel are modelled over the reals.
-/

namespace GangSheet

/-- 2D point (the `Point` interface of the client source). -/
structure Pt (α : Type) where
  x : α
  y : α
  deriving DecidableEq, Repr

/-- The `DesignObject` interface of the client source.  The `rotation` field of
the source is called `rotationDeg` here; it is measured in degrees.  `src` and
`highResSrc` are modelled as `Option String` so that a missing URL (a JS
`undefined`) is representable. -/
structure DesignObject where
  id : String
  type : String
  x : ℚ
  y : ℚ
  width : ℚ
  height : ℚ
  rotationDeg : ℚ
  scaleX : ℚ
  scaleY : ℚ
  src : Option String
  highResSrc : Option String
  zIndex : ℤ
  deriving DecidableEq, Repr

/-- Sheet size (`SizeOption` width/height, in 96-units-per-inch sheet space). -/
structure Sheet where
  width : ℚ
  height : ℚ
  deriving DecidableEq, Repr

/-! ## History manager

Client source: `const [history, setHistory] = useState<DesignObject[][]>([[]])`
and `const [historyStep, setHistoryStep] = useState(0)`, with the callbacks
`saveHistory`, `undo`, `redo`. -/

/-- A history snapshot: a full copy of the object list. -/
abbrev Snap := List DesignObject

/-- The history state: the snapshot array and the cursor (`historyStep`). -/
structure History where
  entries : List Snap
  cursor : ℕ
  deriving DecidableEq, Repr

/-- Initial history: a single empty-object-list entry, cursor 0. -/
def histInit : History := ⟨[[]], 0⟩

/-- `saveHistory(newObjects)`: truncate the entries to `historyStep + 1`
(`history.slice(0, historyStep + 1)`), append the new snapshot, and move the
cursor to the new last index (`newHistory.length - 1`). -/
def saveHistory (s : Snap) (h : History) : History :=
  let newEntries := h.entries.take (h.cursor + 1) ++ [s]
  ⟨newEntries, newEntries.length - 1⟩

/-- `undo()`: if `historyStep > 0`, decrement the cursor; otherwise no-op. -/
def undo (h : History) : History :=
  if 0 < h.cursor then ⟨h.entries, h.cursor - 1⟩ else h

/-- `redo()`: if `historyStep < history.length - 1`, increment the cursor;
otherwise no-op. -/
def redo (h : History) : History :=
  if h.cursor < h.entries.length - 1 then ⟨h.entries, h.cursor + 1⟩ else h

/-- The object list currently addressed by the cursor
(`history[historyStep]`, i.e. the committed `objects` state). -/
def current (h : History) : Snap :=
  h.entries.getD h.cursor []

/-- Committing a list of snapshots in order, oldest first. -/
def commitList (ss : List Snap) (h : History) : History :=
  ss.foldl (fun acc s => saveHistory s acc) h

lemma saveHistory_at_tip (s : Snap) (h : History)
    (htip : h.cursor + 1 = h.entries.length) :
    saveHistory s h = ⟨h.entries ++ [s], h.entries.length⟩ := by
  unfold saveHistory
  rw [htip, List.take_length]
  simp

lemma commitList_at_tip (ss : List Snap) :
    ∀ h : History, h.cursor + 1 = h.entries.length →
      commitList ss h = ⟨h.entries ++ ss, h.entries.length + ss.length - 1⟩ := by
  induction ss with
  | nil =>
      intro h htip
      have hc : h.cursor = h.entries.length + List.length ([] : List Snap) - 1 := by
        simp only [List.length_nil]
        omega
      calc commitList [] h = ⟨h.entries, h.cursor⟩ := rfl
        _ = ⟨h.entries ++ [], h.entries.length + List.length ([] : List Snap) - 1⟩ := by
            rw [hc]; simp
  | cons s ss ih =>
      intro h htip
      have hstep : commitList (s :: ss) h = commitList ss (saveHistory s h) := by
        simp [commitList]
      rw [hstep, saveHistory_at_tip s h htip,
        ih ⟨h.entries ++ [s], h.entries.length⟩ (by simp)]
      show (⟨(h.entries ++ [s]) ++ ss, (h.entries ++ [s]).length + ss.length - 1⟩ : History)
        = ⟨h.entries ++ s :: ss, h.entries.length + (s :: ss).length - 1⟩
      have h1 : (h.entries ++ [s]) ++ ss = h.entries ++ s :: ss := by simp
      have h2 : (h.entries ++ [s]).length + ss.length - 1
          = h.entries.length + (s :: ss).length - 1 := by
        simp only [List.length_append, List.length_singleton, List.length_cons,
          List.length_nil]
        omega
      rw [h1, h2]

lemma undo_iterate (m : ℕ) :
    ∀ h : History, undo^[m] h = ⟨h.entries, h.cursor - m⟩ := by
  induction m with
  | zero => intro h; simp
  | succ m ih =>
      intro h
      rw [Function.iterate_succ_apply', ih h]
      show (if 0 < h.cursor - m then (⟨h.entries, h.cursor - m - 1⟩ : History)
          else ⟨h.entries, h.cursor - m⟩) = ⟨h.entries, h.cursor - (m + 1)⟩
      by_cases hpos : 0 < h.cursor - m
      · rw [if_pos hpos]
        have hh : h.cursor - m - 1 = h.cursor - (m + 1) := by omega
        rw [hh]
      · rw [if_neg hpos]
        have hh : h.cursor - m = h.cursor - (m + 1) := by omega
        rw [hh]

lemma redo_iterate (m : ℕ) :
    ∀ (e : List Snap) (c : ℕ), c ≤ e.length - 1 →
      redo^[m] ⟨e, c⟩ = ⟨e, min (c + m) (e.length - 1)⟩ := by
  induction m with
  | zero => intro e c hc; simp [Nat.min_eq_left hc]
  | succ m ih =>
      intro e c hc
      rw [Function.iterate_succ_apply', ih e c hc]
      show (if min (c + m) (e.length - 1) < e.length - 1
          then (⟨e, min (c + m) (e.length - 1) + 1⟩ : History)
          else ⟨e, min (c + m) (e.length - 1)⟩) = ⟨e, min (c + (m + 1)) (e.length - 1)⟩
      by_cases hlt : min (c + m) (e.length - 1) < e.length - 1
      · rw [if_pos hlt]
        have hh : min (c + m) (e.length - 1) + 1 = min (c + (m + 1)) (e.length - 1) := by
          omega
        rw [hh]
      · rw [if_neg hlt]
        have hh : min (c + m) (e.length - 1) = min (c + (m + 1)) (e.length - 1) := by
          omega
        rw [hh]

/-- The history reached by committing the snapshots `ss` from the start. -/
lemma commitList_from_init (ss : List Snap) :
    commitList ss histInit = ⟨[] :: ss, ss.length⟩ := by
  rw [commitList_at_tip ss histInit (by simp [histInit])]
  simp [histInit]

lemma redo_saveHistory (s : Snap) (h : History) :
    redo (saveHistory s h) = saveHistory s h := by
  unfold redo saveHistory
  simp

/-- A sample design object used for concrete runs. -/
def demoObj : DesignObject :=
  ⟨"o1", "image", 0, 0, 96, 96, 0, 1, 1, some "u", none, 0⟩

/-- A family of pairwise distinct snapshots. -/
def demoSnap (n : ℕ) : Snap := List.replicate n demoObj

/-- C4 (amended): starting from the initial history, committing `N` distinct
object-list states then calling `undo` `N` times returns the empty state, and
further `undo` calls are no-ops; calling `redo` `N` times afterward restores
the `N`-th committed state, and further `redo` calls are no-ops; and committing
a new state after `k < N` undos discards exactly the `k` forward entries (the
original claim said `N - k`), so a subsequent `redo` is a no-op. -/
theorem c4_history_round_trip
    (N : ℕ) (hN : 1 ≤ N) (ss : List Snap) (hlen : ss.length = N) (hnd : ss.Nodup)
    (k : ℕ) (hk : k < N) (s' : Snap) (m : ℕ) :
    current (undo^[N] (commitList ss histInit)) = []
    ∧ undo^[m] (undo^[N] (commitList ss histInit)) = undo^[N] (commitList ss histInit)
    ∧ current (redo^[N] (undo^[N] (commitList ss histInit))) = ss.getD (N - 1) []
    ∧ redo^[m] (redo^[N] (undo^[N] (commitList ss histInit)))
        = redo^[N] (undo^[N] (commitList ss histInit))
    ∧ (undo^[k] (commitList ss histInit)).entries.length + 1
        = (saveHistory s' (undo^[k] (commitList ss histInit))).entries.length + k
    ∧ redo (saveHistory s' (undo^[k] (commitList ss histInit)))
        = saveHistory s' (undo^[k] (commitList ss histInit)) := by
  have hH : commitList ss histInit = ⟨[] :: ss, N⟩ := by
    rw [commitList_from_init, hlen]
  have hlen1 : ([] :: ss : List Snap).length = N + 1 := by simp [hlen]
  have hU : undo^[N] (commitList ss histInit) = ⟨[] :: ss, 0⟩ := by
    rw [hH, undo_iterate]
    show (⟨[] :: ss, N - N⟩ : History) = ⟨[] :: ss, 0⟩
    rw [Nat.sub_self]
  have hminN : min (0 + N) (([] :: ss : List Snap).length - 1) = N := by
    rw [hlen1]; omega
  have hR : redo^[N] (⟨[] :: ss, 0⟩ : History) = ⟨[] :: ss, N⟩ := by
    rw [redo_iterate N ([] :: ss) 0 (Nat.zero_le _), hminN]
  have hUk : undo^[k] (commitList ss histInit) = ⟨[] :: ss, N - k⟩ := by
    rw [hH, undo_iterate]
  refine ⟨?_, ?_, ?_, ?_, ?_, ?_⟩
  · rw [hU]
    show ([] :: ss).getD 0 [] = []
    simp
  · rw [hU, undo_iterate]
    show (⟨[] :: ss, 0 - m⟩ : History) = ⟨[] :: ss, 0⟩
    rw [Nat.zero_sub]
  · rw [hU, hR]
    show ([] :: ss).getD N [] = ss.getD (N - 1) []
    obtain ⟨M, hM⟩ : ∃ M, N = M + 1 := ⟨N - 1, by omega⟩
    rw [hM, List.getD_cons_succ, Nat.add_sub_cancel]
  · rw [hU, hR, redo_iterate m ([] :: ss) N (by rw [hlen1]; omega)]
    have hminM : min (N + m) (([] :: ss : List Snap).length - 1) = N := by
      rw [hlen1]; omega
    rw [hminM]
  · rw [hUk]
    show ([] :: ss : List Snap).length + 1
        = (([] :: ss).take ((N - k) + 1) ++ [s']).length + k
    rw [List.length_append, List.length_take, hlen1]
    simp only [List.length_singleton]
    omega
  · exact redo_saveHistory s' _

/-- C4, counterexample to the original claim: with `N = 3` commits and `k = 1`
undo, the subsequent commit discards 1 forward entry, not `N - k = 2`. -/
theorem c4_counterexample :
    ¬((undo^[1] (commitList [demoSnap 1, demoSnap 2, demoSnap 3] histInit)).entries.length + 1
       = (saveHistory (demoSnap 4)
            (undo^[1] (commitList [demoSnap 1, demoSnap 2, demoSnap 3] histInit))).entries.length
         + (3 - 1)) := by
  decide

/-- C4, witness: the amended claim evaluated at `N = 2`, `k = 1`, `m = 2`. -/
theorem c4_witness :
    (1 ≤ 2 ∧ ([demoSnap 1, demoSnap 2] : List Snap).length = 2
      ∧ ([demoSnap 1, demoSnap 2] : List Snap).Nodup ∧ 1 < 2)
    ∧ (current (undo^[2] (commitList [demoSnap 1, demoSnap 2] histInit)) = []
    ∧ undo^[2] (undo^[2] (commitList [demoSnap 1, demoSnap 2] histInit))
        = undo^[2] (commitList [demoSnap 1, demoSnap 2] histInit)
    ∧ current (redo^[2] (undo^[2] (commitList [demoSnap 1, demoSnap 2] histInit)))
        = ([demoSnap 1, demoSnap 2] : List Snap).getD (2 - 1) []
    ∧ redo^[2] (redo^[2] (undo^[2] (commitList [demoSnap 1, demoSnap 2] histInit)))
        = redo^[2] (undo^[2] (commitList [demoSnap 1, demoSnap 2] histInit))
    ∧ (undo^[1] (commitList [demoSnap 1, demoSnap 2] histInit)).entries.length + 1
        = (saveHistory (demoSnap 3)
            (undo^[1] (commitList [demoSnap 1, demoSnap 2] histInit))).entries.length + 1
    ∧ redo (saveHistory (demoSnap 3) (undo^[1] (commitList [demoSnap 1, demoSnap 2] histInit)))
        = saveHistory (demoSnap 3) (undo^[1] (commitList [demoSnap 1, demoSnap 2] histInit))) :=
  ⟨⟨by decide, by decide, by decide, by decide⟩,
    c4_history_round_trip 2 (by decide) [demoSnap 1, demoSnap 2] (by decide)
      (by decide) 1 (by decide) (demoSnap 3) 2⟩

/-- C9: the history invariant `0 ≤ cursor < entries.length` (the lower bound is
automatic for a natural-number cursor) holds in the initial state and is
preserved by `saveHistory`, `undo` and `redo`, so the cursor always addresses
an existing entry. -/
theorem c9_history_cursor_invariant :
    histInit.cursor < histInit.entries.length ∧
    ∀ (h : History) (s : Snap), h.cursor < h.entries.length →
      (saveHistory s h).cursor < (saveHistory s h).entries.length ∧
      (undo h).cursor < (undo h).entries.length ∧
      (redo h).cursor < (redo h).entries.length := by
  refine ⟨by simp [histInit], ?_⟩
  intro h s hinv
  refine ⟨?_, ?_, ?_⟩
  · show (h.entries.take (h.cursor + 1) ++ [s]).length - 1
        < (h.entries.take (h.cursor + 1) ++ [s]).length
    rw [List.length_append]
    simp only [List.length_singleton]
    omega
  · unfold undo
    by_cases hc : 0 < h.cursor
    · rw [if_pos hc]
      show h.cursor - 1 < h.entries.length
      omega
    · rw [if_neg hc]
      exact hinv
  · unfold redo
    by_cases hc : h.cursor < h.entries.length - 1
    · rw [if_pos hc]
      show h.cursor + 1 < h.entries.length
      omega
    · rw [if_neg hc]
      exact hinv

/-- C9, witness: the invariant checked at the initial state with an empty
snapshot commit. -/
theorem c9_witness :
    (histInit.cursor < histInit.entries.length) ∧
    ((saveHistory [] histInit).cursor < (saveHistory [] histInit).entries.length ∧
     (undo histInit).cursor < (undo histInit).entries.length ∧
     (redo histInit).cursor < (redo histInit).entries.length) :=
  ⟨by decide, c9_history_cursor_invariant.2 histInit [] (by decide)⟩

/-! ## Geometry kernel: the separating-axis test `doPolygonsIntersect`. -/

/-- Projection of a vertex onto an axis: `normal.x * p.x + normal.y * p.y`. -/
def project (n p : Pt ℚ) : ℚ := n.x * p.x + n.y * p.y

/-- The projections of all vertices of one polygon onto an axis. -/
def projections (n : Pt ℚ) (poly : List (Pt ℚ)) : List ℚ :=
  poly.map (fun p => project n p)

/-- The running minimum the source accumulates starting from `Infinity`;
`none` represents the untouched `Infinity` of an empty polygon. -/
def listMin : List ℚ → Option ℚ
  | [] => none
  | q :: qs => some (qs.foldl min q)

/-- The running maximum accumulated from `-Infinity`; `none` represents the
untouched `-Infinity` of an empty polygon. -/
def listMax : List ℚ → Option ℚ
  | [] => none
  | q :: qs => some (qs.foldl max q)

/-- The comparison `maxA < minB` with the source's infinite defaults: a missing
maximum stands for `-Infinity` and a missing minimum for `Infinity`, so the
comparison holds whenever either side is missing. -/
def ltInf : Option ℚ → Option ℚ → Bool
  | none, _ => true
  | _, none => true
  | some u, some v => decide (u < v)

/-- The edge normals the SAT loop tests: for each vertex `p1 = polygon[j]` and
its cyclic successor `p2`, the normal `(p2.y - p1.y, p1.x - p2.x)`. -/
def polyAxes (poly : List (Pt ℚ)) : List (Pt ℚ) :=
  (List.range poly.length).map (fun j =>
    let p1 := poly.getD j ⟨0, 0⟩
    let p2 := poly.getD ((j + 1) % poly.length) ⟨0, 0⟩
    ⟨p2.y - p1.y, p1.x - p2.x⟩)

/-- One axis separates the two polygons: `maxA < minB || maxB < minA`. -/
def axisSeparates (n : Pt ℚ) (a b : List (Pt ℚ)) : Bool :=
  ltInf (listMax (projections n a)) (listMin (projections n b))
  || ltInf (listMax (projections n b)) (listMin (projections n a))

/-- `doPolygonsIntersect(a, b)`: Separating Axis Theorem test over the edge
normals of both polygons; returns false iff some tested axis separates. -/
def doPolygonsIntersect (a b : List (Pt ℚ)) : Bool :=
  !((polyAxes a ++ polyAxes b).any (fun n => axisSeparates n a b))

/-- The 4-corner polygon of the axis-aligned rectangle `[x0,x1] × [y0,y1]`,
listed in the top-left, top-right, bottom-right, bottom-left winding that
`getRotatedCorners` produces at rotation 0. -/
def rectCorners (x0 y0 x1 y1 : ℚ) : List (Pt ℚ) :=
  [⟨x0, y0⟩, ⟨x1, y0⟩, ⟨x1, y1⟩, ⟨x0, y1⟩]

lemma listMax_uuvv (u v : ℚ) : listMax [u, u, v, v] = some (max u v) := by
  simp [listMax, max_self, max_assoc]

lemma listMin_uuvv (u v : ℚ) : listMin [u, u, v, v] = some (min u v) := by
  simp [listMin, min_self, min_assoc]

lemma listMax_uvvu (u v : ℚ) : listMax [u, v, v, u] = some (max u v) := by
  simp [listMax, max_self, max_assoc, max_comm, max_left_comm]

lemma listMin_uvvu (u v : ℚ) : listMin [u, v, v, u] = some (min u v) := by
  simp [listMin, min_self, min_assoc, min_comm, min_left_comm]

/-- A vertical axis `(0, c)` with `c ≠ 0` separates two axis-aligned rectangles
exactly when their y-intervals are strictly disjoint. -/
lemma axisSeparates_vert (c ax0 ay0 ax1 ay1 bx0 by0 bx1 by1 : ℚ)
    (hc : c ≠ 0) (hay : ay0 ≤ ay1) (hby : by0 ≤ by1) :
    axisSeparates ⟨0, c⟩ (rectCorners ax0 ay0 ax1 ay1) (rectCorners bx0 by0 bx1 by1)
      = (decide (ay1 < by0) || decide (by1 < ay0)) := by
  have hpa : projections ⟨0, c⟩ (rectCorners ax0 ay0 ax1 ay1)
      = [c * ay0, c * ay0, c * ay1, c * ay1] := by
    simp [projections, project, rectCorners]
  have hpb : projections ⟨0, c⟩ (rectCorners bx0 by0 bx1 by1)
      = [c * by0, c * by0, c * by1, c * by1] := by
    simp [projections, project, rectCorners]
  unfold axisSeparates
  rw [hpa, hpb, listMax_uuvv, listMin_uuvv, listMax_uuvv, listMin_uuvv]
  simp only [ltInf]
  rcases hc.lt_or_lt with hneg | hpos
  · rw [max_eq_left (mul_le_mul_of_nonpos_left hay hneg.le),
        min_eq_right (mul_le_mul_of_nonpos_left hby hneg.le),
        max_eq_left (mul_le_mul_of_nonpos_left hby hneg.le),
        min_eq_right (mul_le_mul_of_nonpos_left hay hneg.le)]
    simp only [mul_lt_mul_left_of_neg hneg]
    rw [Bool.or_comm]
  · rw [max_eq_right (mul_le_mul_of_nonneg_left hay hpos.le),
        min_eq_left (mul_le_mul_of_nonneg_left hby hpos.le),
        max_eq_right (mul_le_mul_of_nonneg_left hby hpos.le),
        min_eq_left (mul_le_mul_of_nonneg_left hay hpos.le)]
    simp only [mul_lt_mul_left hpos]

/-- A horizontal axis `(c, 0)` with `c ≠ 0` separates two axis-aligned
rectangles exactly when their x-intervals are strictly disjoint. -/
lemma axisSeparates_horiz (c ax0 ay0 ax1 ay1 bx0 by0 bx1 by1 : ℚ)
    (hc : c ≠ 0) (hax : ax0 ≤ ax1) (hbx : bx0 ≤ bx1) :
    axisSeparates ⟨c, 0⟩ (rectCorners ax0 ay0 ax1 ay1) (rectCorners bx0 by0 bx1 by1)
      = (decide (ax1 < bx0) || decide (bx1 < ax0)) := by
  have hpa : projections ⟨c, 0⟩ (rectCorners ax0 ay0 ax1 ay1)
      = [c * ax0, c * ax1, c * ax1, c * ax0] := by
    simp [projections, project, rectCorners]
  have hpb : projections ⟨c, 0⟩ (rectCorners bx0 by0 bx1 by1)
      = [c * bx0, c * bx1, c * bx1, c * bx0] := by
    simp [projections, project, rectCorners]
  unfold axisSeparates
  rw [hpa, hpb, listMax_uvvu, listMin_uvvu, listMax_uvvu, listMin_uvvu]
  simp only [ltInf]
  rcases hc.lt_or_lt with hneg | hpos
  · rw [max_eq_left (mul_le_mul_of_nonpos_left hax hneg.le),
        min_eq_right (mul_le_mul_of_nonpos_left hbx hneg.le),
        max_eq_left (mul_le_mul_of_nonpos_left hbx hneg.le),
        min_eq_right (mul_le_mul_of_nonpos_left hax hneg.le)]
    simp only [mul_lt_mul_left_of_neg hneg]
    rw [Bool.or_comm]
  · rw [max_eq_right (mul_le_mul_of_nonneg_left hax hpos.le),
        min_eq_left (mul_le_mul_of_nonneg_left hbx hpos.le),
        max_eq_right (mul_le_mul_of_nonneg_left hbx hpos.le),
        min_eq_left (mul_le_mul_of_nonneg_left hax hpos.le)]
    simp only [mul_lt_mul_left hpos]

/-- C5: for two axis-aligned, unrotated rectangles given as their 4-corner
polygons, `doPolygonsIntersect` returns true iff the rectangles' x-ranges
intersect and their y-ranges intersect, i.e. it agrees exactly with a plain
1-D interval-overlap test on both axes. -/
theorem c5_sat_matches_interval_test
    (ax0 ay0 ax1 ay1 bx0 by0 bx1 by1 : ℚ)
    (hax : ax0 < ax1) (hay : ay0 < ay1) (hbx : bx0 < bx1) (hby : by0 < by1) :
    doPolygonsIntersect (rectCorners ax0 ay0 ax1 ay1) (rectCorners bx0 by0 bx1 by1) = true
      ↔ ((ax0 ≤ bx1 ∧ bx0 ≤ ax1) ∧ (ay0 ≤ by1 ∧ by0 ≤ ay1)) := by
  have haxA : polyAxes (rectCorners ax0 ay0 ax1 ay1)
      = [⟨0, ax0 - ax1⟩, ⟨ay1 - ay0, 0⟩, ⟨0, ax1 - ax0⟩, ⟨ay0 - ay1, 0⟩] := by
    unfold polyAxes rectCorners
    norm_num [List.range_succ]
  have haxB : polyAxes (rectCorners bx0 by0 bx1 by1)
      = [⟨0, bx0 - bx1⟩, ⟨by1 - by0, 0⟩, ⟨0, bx1 - bx0⟩, ⟨by0 - by1, 0⟩] := by
    unfold polyAxes rectCorners
    norm_num [List.range_succ]
  unfold doPolygonsIntersect
  rw [haxA, haxB]
  simp only [List.cons_append, List.nil_append, List.any_cons, List.any_nil,
    Bool.or_false]
  rw [axisSeparates_vert (ax0 - ax1) _ _ _ _ _ _ _ _
        (sub_ne_zero_of_ne (ne_of_lt hax)) hay.le hby.le,
      axisSeparates_horiz (ay1 - ay0) _ _ _ _ _ _ _ _
        (sub_ne_zero_of_ne (ne_of_gt hay)) hax.le hbx.le,
      axisSeparates_vert (ax1 - ax0) _ _ _ _ _ _ _ _
        (sub_ne_zero_of_ne (ne_of_gt hax)) hay.le hby.le,
      axisSeparates_horiz (ay0 - ay1) _ _ _ _ _ _ _ _
        (sub_ne_zero_of_ne (ne_of_lt hay)) hax.le hbx.le,
      axisSeparates_vert (bx0 - bx1) _ _ _ _ _ _ _ _
        (sub_ne_zero_of_ne (ne_of_lt hbx)) hay.le hby.le,
      axisSeparates_horiz (by1 - by0) _ _ _ _ _ _ _ _
        (sub_ne_zero_of_ne (ne_of_gt hby)) hax.le hbx.le,
      axisSeparates_vert (bx1 - bx0) _ _ _ _ _ _ _ _
        (sub_ne_zero_of_ne (ne_of_gt hbx)) hay.le hby.le,
      axisSeparates_horiz (by0 - by1) _ _ _ _ _ _ _ _
        (sub_ne_zero_of_ne (ne_of_lt hby)) hax.le hbx.le]
  simp only [Bool.not_eq_true', Bool.or_eq_false_iff, decide_eq_false_iff_not,
    not_lt]
  constructor
  · rintro ⟨⟨h1, h2⟩, ⟨h3, h4⟩, -⟩
    exact ⟨⟨h4, h3⟩, ⟨h2, h1⟩⟩
  · rintro ⟨⟨hx1, hx2⟩, ⟨hy1, hy2⟩⟩
    exact ⟨⟨hy2, hy1⟩, ⟨hx2, hx1⟩, ⟨hy2, hy1⟩, ⟨hx2, hx1⟩,
      ⟨hy2, hy1⟩, ⟨hx2, hx1⟩, ⟨hy2, hy1⟩, ⟨hx2, hx1⟩⟩

/-- C5, witness: two concrete overlapping unit squares, and the interval test
agreeing on them. -/
theorem c5_witness :
    ((0 : ℚ) < 2 ∧ (0 : ℚ) < 2 ∧ (1 : ℚ) < 3 ∧ (1 : ℚ) < 3) ∧
    (doPolygonsIntersect (rectCorners 0 0 2 2) (rectCorners 1 1 3 3) = true
      ↔ (((0 : ℚ) ≤ 3 ∧ (1 : ℚ) ≤ 2) ∧ ((0 : ℚ) ≤ 3 ∧ (1 : ℚ) ≤ 2))) :=
  ⟨⟨by norm_num, by norm_num, by norm_num, by norm_num⟩,
    c5_sat_matches_interval_test 0 0 2 2 1 1 3 3
      (by norm_num) (by norm_num) (by norm_num) (by norm_num)⟩

/-! ## Marquee (rubber-band) selection: `handleMouseUp`. -/

/-- The `selectionBox` state active during a marquee drag. -/
structure SelBox where
  startX : ℚ
  startY : ℚ
  x : ℚ
  y : ℚ
  width : ℚ
  height : ℚ
  deriving DecidableEq, Repr

/-- The overlap test of `handleMouseUp`: strict axis-aligned overlap between
the marquee rect and the object's un-rotated bounding box
`(x, y, width * scaleX, height * scaleY)`. -/
def marqueeHit (sb : SelBox) (obj : DesignObject) : Bool :=
  decide (sb.x < obj.x + obj.width * obj.scaleX)
  && decide (sb.x + sb.width > obj.x)
  && decide (sb.y < obj.y + obj.height * obj.scaleY)
  && decide (sb.y + sb.height > obj.y)

/-- `handleMouseUp`: with an active marquee, collect the ids of all objects
hit by the overlap test; replace the selection only when at least one object
was hit (`if (ids.length > 0) setSelectedIds(ids)`). -/
def handleMouseUp (selBox : Option SelBox) (objects : List DesignObject)
    (selectedIds : List String) : List String :=
  match selBox with
  | none => selectedIds
  | some sb =>
      let ids := (objects.filter (fun obj => marqueeHit sb obj)).map (fun o => o.id)
      if 0 < ids.length then ids else selectedIds

/-- C8: on marquee release, every object whose un-rotated bounding box
intersects the marquee rectangle under the axis-aligned overlap test becomes
selected. -/
theorem c8_marquee_selects_every_hit (sb : SelBox) (objects : List DesignObject)
    (selectedIds : List String) (obj : DesignObject)
    (hmem : obj ∈ objects) (hhit : marqueeHit sb obj = true) :
    obj.id ∈ handleMouseUp (some sb) objects selectedIds := by
  have hin : obj.id ∈ (objects.filter (fun o => marqueeHit sb o)).map (fun o => o.id) :=
    List.mem_map_of_mem _ (List.mem_filter.mpr ⟨hmem, hhit⟩)
  have hpos : 0 < ((objects.filter (fun o => marqueeHit sb o)).map (fun o => o.id)).length :=
    List.length_pos.mpr (List.ne_nil_of_mem hin)
  show obj.id ∈
    (if 0 < ((objects.filter (fun o => marqueeHit sb o)).map (fun o => o.id)).length
      then (objects.filter (fun o => marqueeHit sb o)).map (fun o => o.id)
      else selectedIds)
  rw [if_pos hpos]
  exact hin

/-- C8, witness: a marquee over the origin selects the demo object there. -/
theorem c8_witness :
    (demoObj ∈ [demoObj] ∧ marqueeHit ⟨0, 0, 0, 0, 10, 10⟩ demoObj = true) ∧
    demoObj.id ∈ handleMouseUp (some ⟨0, 0, 0, 0, 10, 10⟩) [demoObj] [] :=
  ⟨⟨by decide, by norm_num [marqueeHit, demoObj]⟩,
    c8_marquee_selects_every_hit ⟨0, 0, 0, 0, 10, 10⟩ [demoObj] [] demoObj
      (by decide) (by norm_num [marqueeHit, demoObj])⟩

/-- C10: if no object's un-rotated bounding box intersects the marquee
rectangle, the previously existing selection is left unchanged rather than
cleared. -/
theorem c10_empty_marquee_keeps_selection (sb : SelBox)
    (objects : List DesignObject) (selectedIds : List String)
    (hnone : ∀ obj ∈ objects, marqueeHit sb obj = false) :
    handleMouseUp (some sb) objects selectedIds = selectedIds := by
  have hfil : objects.filter (fun o => marqueeHit sb o) = [] :=
    List.filter_eq_nil_iff.mpr (fun o ho => by simp [hnone o ho])
  show (if 0 < ((objects.filter (fun o => marqueeHit sb o)).map (fun o => o.id)).length
      then (objects.filter (fun o => marqueeHit sb o)).map (fun o => o.id)
      else selectedIds) = selectedIds
  rw [hfil]
  simp

/-- C10, witness: a marquee far away from the demo object leaves the previous
selection in place. -/
theorem c10_witness :
    (∀ obj ∈ [demoObj], marqueeHit ⟨0, 0, 200, 200, 5, 5⟩ obj = false) ∧
    handleMouseUp (some ⟨0, 0, 200, 200, 5, 5⟩) [demoObj] ["keep"] = ["keep"] :=
  ⟨fun obj hobj => by
      rw [List.mem_singleton] at hobj
      subst hobj
      norm_num [marqueeHit, demoObj],
    c10_empty_marquee_keeps_selection ⟨0, 0, 200, 200, 5, 5⟩ [demoObj] ["keep"]
      (fun obj hobj => by
        rw [List.mem_singleton] at hobj
        subst hobj
        norm_num [marqueeHit, demoObj])⟩

/-! ## Multi-object drag synchronization (`onDragStart` / `onDragMove` /
`onDragEnd`). -/

/-- Live node positions on the stage, by object id. -/
abbrev Nodes := String → Pt ℚ

/-- Konva's own move of the dragged node to the pointer position `p`,
performed by the framework before the `onDragMove` handler runs. -/
def moveNode (nodes : Nodes) (id : String) (p : Pt ℚ) : Nodes :=
  fun s => if s = id then p else nodes s

/-- `onDragStart`: record in `dragStartAttrs` the starting position of every
selected object when the dragged object is part of the selection, else only
of the dragged object; an entry is recorded only when the object exists in
the committed object list. -/
def onDragStartAnchors (selectedIds : List String) (objects : List DesignObject)
    (draggedId : String) (nodes : Nodes) : String → Option (Pt ℚ) :=
  if draggedId ∈ selectedIds then
    fun s => if s ∈ selectedIds ∧ (objects.any (fun o => o.id = s)) then some (nodes s)
      else none
  else
    fun s => if s = draggedId ∧ (objects.any (fun o => o.id = draggedId)) then
        some (nodes draggedId)
      else none

/-- `onDragMove`: if the dragged object is part of a multi-selection, compute
the delta of the dragged node from its anchor and move every other selected
node to its own anchor plus that same delta. -/
def onDragMove (selectedIds : List String) (draggedId : String)
    (anchors : String → Option (Pt ℚ)) (nodes : Nodes) : Nodes :=
  if draggedId ∈ selectedIds ∧ 1 < selectedIds.length then
    match anchors draggedId with
    | none => nodes
    | some aD =>
        let dx := (nodes draggedId).x - aD.x
        let dy := (nodes draggedId).y - aD.y
        fun s =>
          if s ∈ selectedIds ∧ s ≠ draggedId then
            match anchors s with
            | some aS => ⟨aS.x + dx, aS.y + dy⟩
            | none => nodes s
          else nodes s
  else nodes

/-- One drag tick: the framework moves the dragged node to `p`, then the
`onDragMove` handler propagates the delta. -/
def dragStep (selectedIds : List String) (draggedId : String)
    (anchors : String → Option (Pt ℚ)) (nodes : Nodes) (p : Pt ℚ) : Nodes :=
  onDragMove selectedIds draggedId anchors (moveNode nodes draggedId p)

/-- `{ ...obj, x: node.x(), y: node.y() }`. -/
def withNodePos (obj : DesignObject) (p : Pt ℚ) : DesignObject :=
  { obj with x := p.x, y := p.y }

/-- `onDragEnd`: read back the final node position of every object that
participated in the gesture, patch the committed object list, and call
`saveHistory` exactly once. -/
def onDragEnd (selectedIds : List String) (draggedId : String)
    (objects : List DesignObject) (nodes : Nodes) (h : History) :
    List DesignObject × History :=
  let idsToUpdate := if draggedId ∈ selectedIds then selectedIds else [draggedId]
  let potentialObjects := objects.map (fun obj =>
    if obj.id ∈ idsToUpdate then withNodePos obj (nodes obj.id) else obj)
  (potentialObjects, saveHistory potentialObjects h)

/-- A whole drag gesture: anchor recording at gesture start, a sequence of
pointer moves of the dragged node, then the final commit. -/
def runDragGesture (selectedIds : List String) (draggedId : String)
    (objects : List DesignObject) (nodes0 : Nodes) (moves : List (Pt ℚ))
    (h : History) : List DesignObject × History :=
  let anchors := onDragStartAnchors selectedIds objects draggedId nodes0
  let nodesF := moves.foldl (fun ns p => dragStep selectedIds draggedId anchors ns p) nodes0
  onDragEnd selectedIds draggedId objects nodesF h

lemma anchors_of_selected (a b c : String) (objects : List DesignObject)
    (nodes0 : Nodes)
    (hpresent : ∀ s ∈ [a, b, c], objects.any (fun o => o.id = s) = true) :
    ∀ s ∈ [a, b, c],
      onDragStartAnchors [a, b, c] objects a nodes0 s = some (nodes0 s) := by
  intro s hs
  have hmemA : a ∈ [a, b, c] := List.mem_cons_self _ _
  unfold onDragStartAnchors
  rw [if_pos hmemA]
  exact if_pos ⟨hs, hpresent s hs⟩

lemma dragStep_eval (a b c : String) (objects : List DesignObject)
    (nodes0 : Nodes)
    (hpresent : ∀ s ∈ [a, b, c], objects.any (fun o => o.id = s) = true)
    (ns : Nodes) (p : Pt ℚ) :
    ∀ s ∈ [a, b, c],
      dragStep [a, b, c] a (onDragStartAnchors [a, b, c] objects a nodes0) ns p s
        = ⟨(nodes0 s).x + (p.x - (nodes0 a).x), (nodes0 s).y + (p.y - (nodes0 a).y)⟩ := by
  intro s hs
  have hmemA : a ∈ [a, b, c] := List.mem_cons_self _ _
  have hanchA := anchors_of_selected a b c objects nodes0 hpresent a hmemA
  have hmoved : moveNode ns a p a = p := by simp [moveNode]
  unfold dragStep onDragMove
  rw [if_pos ⟨hmemA, by norm_num⟩]
  simp only [hanchA]
  by_cases hsa : s = a
  · subst hsa
    rw [if_neg (fun hcon => hcon.2 rfl), hmoved]
    obtain ⟨px, py⟩ := p
    simp only [Pt.mk.injEq]
    constructor <;> ring
  · rw [if_pos ⟨hs, hsa⟩]
    simp only [anchors_of_selected a b c objects nodes0 hpresent s hs, hmoved]

/-- C6: in a multi-object drag with objects `a`, `b`, `c` selected and `a`
dragged, every move applies the identical delta from each object's anchor to
every selected object's live position; on gesture end the committed position
of every selected object is its pre-drag position plus exactly `(dx, dy)`
(the total delta of the final move), and the gesture performs exactly one
history commit. -/
theorem c6_multi_drag_commits_shared_delta
    (a b c : String) (hab : a ≠ b) (hac : a ≠ c) (hbc : b ≠ c)
    (objects : List DesignObject) (nodes0 : Nodes) (h0 : History)
    (dx dy : ℚ) (ms : List (Pt ℚ))
    (hpresent : ∀ s ∈ [a, b, c], objects.any (fun o => o.id = s) = true) :
    (∀ (i : ℕ) (hi : i < (ms ++ [(⟨(nodes0 a).x + dx, (nodes0 a).y + dy⟩ : Pt ℚ)]).length),
      ∀ s ∈ [a, b, c],
        ((ms ++ [(⟨(nodes0 a).x + dx, (nodes0 a).y + dy⟩ : Pt ℚ)]).take (i + 1)).foldl
            (fun ns p => dragStep [a, b, c] a
              (onDragStartAnchors [a, b, c] objects a nodes0) ns p) nodes0 s
          = ⟨(nodes0 s).x
              + (((ms ++ [(⟨(nodes0 a).x + dx, (nodes0 a).y + dy⟩ : Pt ℚ)]).get ⟨i, hi⟩).x
                  - (nodes0 a).x),
             (nodes0 s).y
              + (((ms ++ [(⟨(nodes0 a).x + dx, (nodes0 a).y + dy⟩ : Pt ℚ)]).get ⟨i, hi⟩).y
                  - (nodes0 a).y)⟩)
    ∧ (runDragGesture [a, b, c] a objects nodes0
          (ms ++ [(⟨(nodes0 a).x + dx, (nodes0 a).y + dy⟩ : Pt ℚ)]) h0).1
        = objects.map (fun o =>
            if o.id ∈ [a, b, c] then
              withNodePos o ⟨(nodes0 o.id).x + dx, (nodes0 o.id).y + dy⟩
            else o)
    ∧ (runDragGesture [a, b, c] a objects nodes0
          (ms ++ [(⟨(nodes0 a).x + dx, (nodes0 a).y + dy⟩ : Pt ℚ)]) h0).2
        = saveHistory
            (runDragGesture [a, b, c] a objects nodes0
              (ms ++ [(⟨(nodes0 a).x + dx, (nodes0 a).y + dy⟩ : Pt ℚ)]) h0).1 h0 := by
  have hmemA : a ∈ [a, b, c] := List.mem_cons_self _ _
  set pfin : Pt ℚ := ⟨(nodes0 a).x + dx, (nodes0 a).y + dy⟩ with hpfin
  set anchors := onDragStartAnchors [a, b, c] objects a nodes0 with hanchors
  set step := fun ns p => dragStep [a, b, c] a anchors ns p with hstepdef
  have hfold_last : ∀ (init : Nodes) (ms' : List (Pt ℚ)) (p : Pt ℚ),
      ∀ s ∈ [a, b, c],
        ((ms' ++ [p]).foldl step init) s
          = ⟨(nodes0 s).x + (p.x - (nodes0 a).x), (nodes0 s).y + (p.y - (nodes0 a).y)⟩ := by
    intro init ms' p s hs
    rw [List.foldl_append, List.foldl_cons, List.foldl_nil]
    exact dragStep_eval a b c objects nodes0 hpresent _ p s hs
  refine ⟨?_, ?_, ?_⟩
  · intro i hi s hs
    have htake : (ms ++ [pfin]).take (i + 1)
        = (ms ++ [pfin]).take i ++ [(ms ++ [pfin]).get ⟨i, hi⟩] := by
      rw [List.get_eq_getElem]
      exact (List.take_concat_get' (ms ++ [pfin]) i hi).symm
    rw [htake]
    exact hfold_last nodes0 _ _ s hs
  · show (objects.map (fun obj =>
        if obj.id ∈ (if a ∈ [a, b, c] then [a, b, c] else [a]) then
          withNodePos obj (((ms ++ [pfin]).foldl step nodes0) obj.id)
        else obj)) = _
    rw [if_pos hmemA]
    refine List.map_congr_left ?_
    intro o _
    by_cases hid : o.id ∈ [a, b, c]
    · rw [if_pos hid, if_pos hid, hfold_last nodes0 ms pfin o.id hid]
      have hx : (nodes0 o.id).x + (pfin.x - (nodes0 a).x) = (nodes0 o.id).x + dx := by
        rw [hpfin]
        dsimp only
        ring
      have hy : (nodes0 o.id).y + (pfin.y - (nodes0 a).y) = (nodes0 o.id).y + dy := by
        rw [hpfin]
        dsimp only
        ring
      rw [hx, hy]
    · rw [if_neg hid, if_neg hid]
  · rfl

/-- C6, witness: a concrete three-object drag gesture. -/
theorem c6_witness :
    (("a" : String) ≠ "b" ∧ ("a" : String) ≠ "c" ∧ ("b" : String) ≠ "c"
      ∧ ∀ s ∈ ["a", "b", "c"],
          ([{ demoObj with id := "a" }, { demoObj with id := "b" },
            { demoObj with id := "c" }] : List DesignObject).any (fun o => o.id = s) = true)
    ∧ (runDragGesture ["a", "b", "c"] "a"
          [{ demoObj with id := "a" }, { demoObj with id := "b" },
            { demoObj with id := "c" }]
          (fun _ => ⟨0, 0⟩) ([] ++ [(⟨(0 : ℚ) + 7, (0 : ℚ) + 5⟩ : Pt ℚ)]) histInit).1
        = ([{ demoObj with id := "a" }, { demoObj with id := "b" },
            { demoObj with id := "c" }] : List DesignObject).map (fun o =>
            if o.id ∈ ["a", "b", "c"] then withNodePos o ⟨(0 : ℚ) + 7, (0 : ℚ) + 5⟩ else o)
    ∧ (runDragGesture ["a", "b", "c"] "a"
          [{ demoObj with id := "a" }, { demoObj with id := "b" },
            { demoObj with id := "c" }]
          (fun _ => ⟨0, 0⟩) ([] ++ [(⟨(0 : ℚ) + 7, (0 : ℚ) + 5⟩ : Pt ℚ)]) histInit).2
        = saveHistory
            (runDragGesture ["a", "b", "c"] "a"
              [{ demoObj with id := "a" }, { demoObj with id := "b" },
                { demoObj with id := "c" }]
              (fun _ => ⟨0, 0⟩) ([] ++ [(⟨(0 : ℚ) + 7, (0 : ℚ) + 5⟩ : Pt ℚ)]) histInit).1
            histInit := by
  have h := c6_multi_drag_commits_shared_delta "a" "b" "c"
    (by decide) (by decide) (by decide)
    [{ demoObj with id := "a" }, { demoObj with id := "b" }, { demoObj with id := "c" }]
    (fun _ => ⟨0, 0⟩) histInit 7 5 [] (by decide)
  exact ⟨⟨by decide, by decide, by decide, by decide⟩, h.2.1, h.2.2⟩

/-! ## Export compositor (`POST /api/export` in the server source). -/

/-- `SCALE_FACTOR = 300 / 96`: target print resolution over the 96-units-per-
inch reference grid. -/
def SCALE_FACTOR : ℚ := 300 / 96

/-- JavaScript `v || d` on numbers: `0` is falsy and falls back to `d`. -/
def jsOr (v d : ℚ) : ℚ := if v = 0 then d else v

/-- The destination rectangle computed by the draw loop:
`x = obj.x * S`, `y = obj.y * S`, `width = obj.width * S * (obj.scaleX || 1)`,
`height = obj.height * S * (obj.scaleY || 1)`. -/
structure DestRect where
  x : ℚ
  y : ℚ
  width : ℚ
  height : ℚ
  deriving DecidableEq, Repr

/-- The destination rectangle of one object, from the draw loop's locals. -/
def destRect (obj : DesignObject) : DestRect :=
  ⟨obj.x * SCALE_FACTOR, obj.y * SCALE_FACTOR,
   obj.width * SCALE_FACTOR * jsOr obj.scaleX 1,
   obj.height * SCALE_FACTOR * jsOr obj.scaleY 1⟩

/-- A canvas 2D context operation performed by the draw loop. -/
inductive CanvasOp where
  | save : CanvasOp
  | translate : ℚ → ℚ → CanvasOp
  | rotate : ℝ → CanvasOp
  | drawImage : ℚ → ℚ → ℚ → ℚ → CanvasOp
  | restore : CanvasOp

/-- `const rotation = (obj.rotation || 0) * Math.PI / 180`. -/
noncomputable def rotRad (obj : DesignObject) : ℝ :=
  ((jsOr obj.rotationDeg 0 : ℚ) : ℝ) * Real.pi / 180

/-- The canvas operations the draw loop performs for one object: save,
translate to the destination rect's center, rotate, draw the decoded image
centered at the computed size, restore. -/
noncomputable def paintOps (obj : DesignObject) : List CanvasOp :=
  [CanvasOp.save,
   CanvasOp.translate ((destRect obj).x + (destRect obj).width / 2)
     ((destRect obj).y + (destRect obj).height / 2),
   CanvasOp.rotate (rotRad obj),
   CanvasOp.drawImage (-(destRect obj).width / 2) (-(destRect obj).height / 2)
     (destRect obj).width (destRect obj).height,
   CanvasOp.restore]

/-- Errors of the export route. -/
inductive ExportError where
  | missingData : ExportError
  | noObjects : ExportError
  | noImageObjects : ExportError
  | loadAllFailed : ExportError
  deriving DecidableEq, Repr

/-- A successful export: raster canvas dimensions, the destination rectangles
painted in list order, and the success/skip counts the route reports. -/
structure ExportResult where
  stageWidth : ℤ
  stageHeight : ℤ
  draws : List DestRect
  successCount : ℕ
  skippedCount : ℕ
  deriving DecidableEq, Repr

/-- JS truthiness of an optional string: `undefined` and `""` are falsy. -/
def strFalsy : Option String → Bool
  | none => true
  | some s => s = ""

/-- `const imageUrl = obj.highResSrc || obj.src` combined with the loader's
`if (!imageUrl)` guard: the URL actually fetched for an object, if any. -/
def resolvedUrl (obj : DesignObject) : Option String :=
  let u := if strFalsy obj.highResSrc then obj.src else obj.highResSrc
  match u with
  | none => none
  | some s => if s = "" then none else some s

/-- Whether an object's asset loads: a fetchable URL must exist and the
network/decode oracle `loader` must succeed on it. -/
def loadSuccess (loader : String → Bool) (obj : DesignObject) : Bool :=
  match resolvedUrl obj with
  | none => false
  | some u => loader u

/-- The export route: validation, asset loading (the concurrent fan-out is
modelled by the pure `loader` oracle), then the sequential draw loop over
the successful subset.  Returns the result or error, together with the list
of URLs for which a fetch was issued. -/
def runExport (loader : String → Bool) :
    Option Sheet → Option (List DesignObject) →
      Except ExportError ExportResult × List String
  | none, _ => (Except.error ExportError.missingData, [])
  | some _, none => (Except.error ExportError.missingData, [])
  | some sheet, some objs =>
    if objs.length = 0 then (Except.error ExportError.noObjects, [])
    else
      let stageWidth := ⌈sheet.width * SCALE_FACTOR⌉
      let stageHeight := ⌈sheet.height * SCALE_FACTOR⌉
      let imageObjects := objs.filter (fun o => o.type = "image")
      if imageObjects.length = 0 then (Except.error ExportError.noImageObjects, [])
      else
        let fetched := imageObjects.filterMap (fun o => resolvedUrl o)
        let successfulImages := imageObjects.filter (fun o => loadSuccess loader o)
        if successfulImages.length = 0 then
          (Except.error ExportError.loadAllFailed, fetched)
        else
          (Except.ok ⟨stageWidth, stageHeight, successfulImages.map destRect,
            successfulImages.length, imageObjects.length - successfulImages.length⟩,
           fetched)

lemma jsOr_zero (v : ℚ) : jsOr v 0 = v := by
  unfold jsOr
  split
  · exact (by assumption : v = 0).symm
  · rfl

/-- C7: an export request whose `size` or `objects` is missing, whose
`objects` is empty, or whose `objects` contains no image-kind objects, is
rejected immediately with a validation error, before any asset fetch or
drawing work: the fetch list is empty and no result is produced. -/
theorem c7_validation_rejects_before_fetch (loader : String → Bool) :
    (∀ objects, runExport loader none objects
        = (Except.error ExportError.missingData, []))
    ∧ (∀ sheet, runExport loader (some sheet) none
        = (Except.error ExportError.missingData, []))
    ∧ (∀ sheet, runExport loader (some sheet) (some [])
        = (Except.error ExportError.noObjects, []))
    ∧ (∀ sheet objs, objs ≠ [] → objs.filter (fun o => o.type = "image") = [] →
        runExport loader (some sheet) (some objs)
          = (Except.error ExportError.noImageObjects, [])) := by
  refine ⟨fun objects => rfl, fun sheet => rfl, fun sheet => rfl, ?_⟩
  intro sheet objs hne hfil
  have hlen : ¬(objs.length = 0) := by
    simpa [List.length_eq_zero] using hne
  simp [runExport, hlen, hfil]

/-- C7, witness: the four validation rejections on concrete requests. -/
theorem c7_witness :
    runExport (fun _ => true) none (some [demoObj])
      = (Except.error ExportError.missingData, [])
    ∧ runExport (fun _ => true) (some ⟨10, 10⟩) none
      = (Except.error ExportError.missingData, [])
    ∧ runExport (fun _ => true) (some ⟨10, 10⟩) (some [])
      = (Except.error ExportError.noObjects, [])
    ∧ (([{ demoObj with type := "text" }] : List DesignObject) ≠ []
       ∧ ([{ demoObj with type := "text" }] : List DesignObject).filter
            (fun o => o.type = "image") = [])
    ∧ runExport (fun _ => true) (some ⟨10, 10⟩) (some [{ demoObj with type := "text" }])
      = (Except.error ExportError.noImageObjects, []) := by
  have h := c7_validation_rejects_before_fetch (fun _ => true)
  exact ⟨h.1 (some [demoObj]), h.2.1 ⟨10, 10⟩, h.2.2.1 ⟨10, 10⟩,
    ⟨by decide, by decide⟩,
    h.2.2.2 ⟨10, 10⟩ [{ demoObj with type := "text" }] (by decide) (by decide)⟩

/-- C3: for a request that passes validation, the export fails (with the
explicit total-loss error, returning no raster) iff zero image objects load
successfully; if at least one loads, the result is built from exactly the
successful subset, with the skipped objects counted. -/
theorem c3_total_loss_iff_zero_successes (loader : String → Bool) (sheet : Sheet)
    (objs : List DesignObject) (hne : objs ≠ [])
    (himg : objs.filter (fun o => o.type = "image") ≠ []) :
    ((runExport loader (some sheet) (some objs)).1
        = Except.error ExportError.loadAllFailed
      ↔ (objs.filter (fun o => o.type = "image")).filter
          (fun o => loadSuccess loader o) = [])
    ∧ ((objs.filter (fun o => o.type = "image")).filter
          (fun o => loadSuccess loader o) ≠ [] →
        (runExport loader (some sheet) (some objs)).1
          = Except.ok ⟨⌈sheet.width * SCALE_FACTOR⌉, ⌈sheet.height * SCALE_FACTOR⌉,
              (((objs.filter (fun o => o.type = "image")).filter
                (fun o => loadSuccess loader o)).map destRect),
              ((objs.filter (fun o => o.type = "image")).filter
                (fun o => loadSuccess loader o)).length,
              (objs.filter (fun o => o.type = "image")).length
                - ((objs.filter (fun o => o.type = "image")).filter
                    (fun o => loadSuccess loader o)).length⟩) := by
  have hlen : ¬(objs.length = 0) := by
    simpa [List.length_eq_zero] using hne
  have himglen : ¬((objs.filter (fun o => o.type = "image")).length = 0) := by
    simpa [List.length_eq_zero] using himg
  constructor
  · simp only [runExport, if_neg hlen, if_neg himglen]
    by_cases hz : ((objs.filter (fun o => o.type = "image")).filter
        (fun o => loadSuccess loader o)).length = 0
    · have hfe := List.length_eq_zero.mp hz
      rw [if_pos hz]
      exact iff_of_true rfl hfe
    · have hfe : (objs.filter (fun o => o.type = "image")).filter
          (fun o => loadSuccess loader o) ≠ [] := by
        intro h
        exact hz (by rw [h]; rfl)
      rw [if_neg hz]
      refine iff_of_false ?_ hfe
      intro hcon
      exact Except.noConfusion hcon
  · intro hnz
    have hz : ¬(((objs.filter (fun o => o.type = "image")).filter
        (fun o => loadSuccess loader o)).length = 0) :=
      fun h => hnz (List.length_eq_zero.mp h)
    simp only [runExport, if_neg hlen, if_neg himglen, if_neg hz]

/-- An image object whose asset URL fails to load. -/
def badObj : DesignObject := { demoObj with id := "o2", src := some "bad", highResSrc := none }

/-- C3, witness: two image objects of which exactly one loads; the export
succeeds with one draw and one skip, and its failure is equivalent to the
successful subset being empty (here it is not). -/
theorem c3_witness :
    (([demoObj, badObj] : List DesignObject) ≠ []
      ∧ ([demoObj, badObj] : List DesignObject).filter (fun o => o.type = "image") ≠ []
      ∧ (([demoObj, badObj] : List DesignObject).filter (fun o => o.type = "image")).filter
            (fun o => loadSuccess (fun u => u = "u") o) ≠ [])
    ∧ (((runExport (fun u => u = "u") (some ⟨10, 10⟩) (some [demoObj, badObj])).1
        = Except.error ExportError.loadAllFailed
      ↔ (([demoObj, badObj] : List DesignObject).filter (fun o => o.type = "image")).filter
            (fun o => loadSuccess (fun u => u = "u") o) = [])
    ∧ (runExport (fun u => u = "u") (some ⟨10, 10⟩) (some [demoObj, badObj])).1
          = Except.ok ⟨⌈(10 : ℚ) * SCALE_FACTOR⌉, ⌈(10 : ℚ) * SCALE_FACTOR⌉,
              ((([demoObj, badObj] : List DesignObject).filter
                  (fun o => o.type = "image")).filter
                  (fun o => loadSuccess (fun u => u = "u") o)).map destRect,
              ((([demoObj, badObj] : List DesignObject).filter
                  (fun o => o.type = "image")).filter
                  (fun o => loadSuccess (fun u => u = "u") o)).length,
              (([demoObj, badObj] : List DesignObject).filter
                  (fun o => o.type = "image")).length
                - ((([demoObj, badObj] : List DesignObject).filter
                    (fun o => o.type = "image")).filter
                    (fun o => loadSuccess (fun u => u = "u") o)).length⟩) :=
  ⟨⟨by decide, by decide, by decide⟩,
    (c3_total_loss_iff_zero_successes (fun u => u = "u") ⟨10, 10⟩ [demoObj, badObj]
      (by decide) (by decide)).1,
    (c3_total_loss_iff_zero_successes (fun u => u = "u") ⟨10, 10⟩ [demoObj, badObj]
      (by decide) (by decide)).2 (by decide)⟩

/-- C1 (amended): for every image object painted by the export compositor the
destination rectangle on the raster is
`(x*S, y*S, width*S*scaleX, height*S*scaleY)` with the SIGNED scale factors
(a zero/missing scale falls back to 1) — not the absolute magnitudes the
original claim stated; the decoded image is drawn centered in that rectangle
after rotating by `rotation` converted to radians about the rectangle's
center, with the transform state saved before and restored after; an object
with `width = 96`, `scaleX = 1`, `rotation = 0` placed at `x = 0` gets a
destination rectangle at `x = 0` of pixel width `round(96 * 300/96) = 300`. -/
theorem c1_draw_loop_destination (obj : DesignObject) :
    destRect obj = ⟨obj.x * SCALE_FACTOR, obj.y * SCALE_FACTOR,
        obj.width * SCALE_FACTOR * (if obj.scaleX = 0 then 1 else obj.scaleX),
        obj.height * SCALE_FACTOR * (if obj.scaleY = 0 then 1 else obj.scaleY)⟩
    ∧ paintOps obj = [CanvasOp.save,
        CanvasOp.translate ((destRect obj).x + (destRect obj).width / 2)
          ((destRect obj).y + (destRect obj).height / 2),
        CanvasOp.rotate (((obj.rotationDeg : ℚ) : ℝ) * Real.pi / 180),
        CanvasOp.drawImage (-(destRect obj).width / 2) (-(destRect obj).height / 2)
          (destRect obj).width (destRect obj).height,
        CanvasOp.restore]
    ∧ (obj.width = 96 → obj.scaleX = 1 → obj.x = 0 →
        (destRect obj).x = 0 ∧ (destRect obj).width = 300
          ∧ round (destRect obj).width = 300) := by
  refine ⟨rfl, ?_, ?_⟩
  · unfold paintOps rotRad
    rw [jsOr_zero]
  · intro h96 h1 h0
    refine ⟨?_, ?_, ?_⟩
    · show obj.x * SCALE_FACTOR = 0
      rw [h0]
      ring
    · show obj.width * SCALE_FACTOR * jsOr obj.scaleX 1 = 300
      rw [h96, h1]
      norm_num [jsOr, SCALE_FACTOR]
    · show round (obj.width * SCALE_FACTOR * jsOr obj.scaleX 1) = 300
      rw [h96, h1]
      have h300 : (96 : ℚ) * SCALE_FACTOR * jsOr 1 1 = ((300 : ℤ) : ℚ) := by
        norm_num [jsOr, SCALE_FACTOR]
      rw [h300, round_intCast]

/-- A horizontally mirrored object (`scaleX = -1`). -/
def mirroredObj : DesignObject := { demoObj with id := "m", scaleX := -1 }

/-- C1, counterexample to the original claim: for a mirrored object the draw
loop's destination width uses the signed `scaleX`, not `|scaleX|`: it comes
out negative instead of positive. -/
theorem c1_counterexample :
    (destRect mirroredObj).width
      ≠ mirroredObj.width * SCALE_FACTOR * |mirroredObj.scaleX| := by
  show (96 : ℚ) * SCALE_FACTOR * jsOr (-1) 1 ≠ 96 * SCALE_FACTOR * |(-1 : ℚ)|
  norm_num [jsOr, SCALE_FACTOR]

/-- C1, witness: the compositor-scaling example evaluated on the demo object
(`width = 96`, `scaleX = 1`, `rotation = 0`, `x = 0`). -/
theorem c1_witness :
    (demoObj.width = 96 ∧ demoObj.scaleX = 1 ∧ demoObj.x = 0)
    ∧ ((destRect demoObj).x = 0 ∧ (destRect demoObj).width = 300
        ∧ round (destRect demoObj).width = 300) :=
  ⟨⟨rfl, rfl, rfl⟩, (c1_draw_loop_destination demoObj).2.2 rfl rfl rfl⟩

/-! ## Geometry kernel: `getRotatedCorners` (over ℝ, for the trigonometry). -/

/-- `getRotatedCorners(obj, buffer)` from the client source: size the
rectangle by `|scaleX|, |scaleY|` plus `buffer` on each side, place the local
corners around the un-buffered top-left origin, rotate by `rotation` degrees
and translate by `(x, y)`. -/
noncomputable def getRotatedCorners (obj : DesignObject) (buffer : ℚ) : List (Pt ℝ) :=
  let rad : ℝ := ((obj.rotationDeg : ℚ) : ℝ) * Real.pi / 180
  let c := Real.cos rad
  let s := Real.sin rad
  let w : ℝ := (obj.width : ℝ) * |(obj.scaleX : ℝ)| + (buffer : ℝ) * 2
  let h : ℝ := (obj.height : ℝ) * |(obj.scaleY : ℝ)| + (buffer : ℝ) * 2
  let ox : ℝ := (obj.x : ℝ)
  let oy : ℝ := (obj.y : ℝ)
  let corners : List (Pt ℝ) :=
    [⟨-(buffer : ℝ), -(buffer : ℝ)⟩, ⟨w - (buffer : ℝ), -(buffer : ℝ)⟩,
     ⟨w - (buffer : ℝ), h - (buffer : ℝ)⟩, ⟨-(buffer : ℝ), h - (buffer : ℝ)⟩]
  corners.map (fun p => ⟨p.x * c - p.y * s + ox, p.x * s + p.y * c + oy⟩)

/-- The claim's reading of the corner computation, stated from the spec's
words: the corners of the buffered rectangle rotated about the object's OWN
CENTER, with the object sitting at `(x, y)`. -/
noncomputable def specCenterRotatedCorners (obj : DesignObject) (buffer : ℚ) :
    List (Pt ℝ) :=
  let rad : ℝ := ((obj.rotationDeg : ℚ) : ℝ) * Real.pi / 180
  let c := Real.cos rad
  let s := Real.sin rad
  let w : ℝ := (obj.width : ℝ) * |(obj.scaleX : ℝ)|
  let h : ℝ := (obj.height : ℝ) * |(obj.scaleY : ℝ)|
  let cx : ℝ := (obj.x : ℝ) + w / 2
  let cy : ℝ := (obj.y : ℝ) + h / 2
  let offsets : List (Pt ℝ) :=
    [⟨-(w / 2 + (buffer : ℝ)), -(h / 2 + (buffer : ℝ))⟩,
     ⟨w / 2 + (buffer : ℝ), -(h / 2 + (buffer : ℝ))⟩,
     ⟨w / 2 + (buffer : ℝ), h / 2 + (buffer : ℝ)⟩,
     ⟨-(w / 2 + (buffer : ℝ)), h / 2 + (buffer : ℝ)⟩]
  offsets.map (fun p => ⟨p.x * c - p.y * s + cx, p.x * s + p.y * c + cy⟩)

/-- C2 (amended): `getRotatedCorners` returns, in TL, TR, BR, BL winding
order, the four corners of the axis-aligned rectangle of size
`(width*|scaleX| + 2*buffer) × (height*|scaleY| + 2*buffer)` (the bounding
rectangle inflated by `buffer` on each side), rotated by `rotation` degrees
about the object's TOP-LEFT point — the point that lands at `(x, y)` — and
translated there; the original claim's pivot, the object's own center, is
wrong.  For rotation in `{0°, 90°, 180°, 270°}` and zero buffer the result is
the corresponding axis-aligned rectangle anchored at `(x, y)`. -/
theorem c2_oriented_corners (obj : DesignObject) (buffer : ℚ) :
    (getRotatedCorners obj buffer
      = ([⟨-(buffer : ℝ), -(buffer : ℝ)⟩,
          ⟨(obj.width : ℝ) * |(obj.scaleX : ℝ)| + (buffer : ℝ), -(buffer : ℝ)⟩,
          ⟨(obj.width : ℝ) * |(obj.scaleX : ℝ)| + (buffer : ℝ),
            (obj.height : ℝ) * |(obj.scaleY : ℝ)| + (buffer : ℝ)⟩,
          ⟨-(buffer : ℝ), (obj.height : ℝ) * |(obj.scaleY : ℝ)| + (buffer : ℝ)⟩]
          : List (Pt ℝ)).map (fun p =>
          ⟨p.x * Real.cos (((obj.rotationDeg : ℚ) : ℝ) * Real.pi / 180)
              - p.y * Real.sin (((obj.rotationDeg : ℚ) : ℝ) * Real.pi / 180)
              + (obj.x : ℝ),
            p.x * Real.sin (((obj.rotationDeg : ℚ) : ℝ) * Real.pi / 180)
              + p.y * Real.cos (((obj.rotationDeg : ℚ) : ℝ) * Real.pi / 180)
              + (obj.y : ℝ)⟩))
    ∧ (obj.rotationDeg = 0 → getRotatedCorners obj 0
        = [⟨(obj.x : ℝ), (obj.y : ℝ)⟩,
           ⟨(obj.x : ℝ) + (obj.width : ℝ) * |(obj.scaleX : ℝ)|, (obj.y : ℝ)⟩,
           ⟨(obj.x : ℝ) + (obj.width : ℝ) * |(obj.scaleX : ℝ)|,
             (obj.y : ℝ) + (obj.height : ℝ) * |(obj.scaleY : ℝ)|⟩,
           ⟨(obj.x : ℝ), (obj.y : ℝ) + (obj.height : ℝ) * |(obj.scaleY : ℝ)|⟩])
    ∧ (obj.rotationDeg = 90 → getRotatedCorners obj 0
        = [⟨(obj.x : ℝ), (obj.y : ℝ)⟩,
           ⟨(obj.x : ℝ), (obj.y : ℝ) + (obj.width : ℝ) * |(obj.scaleX : ℝ)|⟩,
           ⟨(obj.x : ℝ) - (obj.height : ℝ) * |(obj.scaleY : ℝ)|,
             (obj.y : ℝ) + (obj.width : ℝ) * |(obj.scaleX : ℝ)|⟩,
           ⟨(obj.x : ℝ) - (obj.height : ℝ) * |(obj.scaleY : ℝ)|, (obj.y : ℝ)⟩])
    ∧ (obj.rotationDeg = 180 → getRotatedCorners obj 0
        = [⟨(obj.x : ℝ), (obj.y : ℝ)⟩,
           ⟨(obj.x : ℝ) - (obj.width : ℝ) * |(obj.scaleX : ℝ)|, (obj.y : ℝ)⟩,
           ⟨(obj.x : ℝ) - (obj.width : ℝ) * |(obj.scaleX : ℝ)|,
             (obj.y : ℝ) - (obj.height : ℝ) * |(obj.scaleY : ℝ)|⟩,
           ⟨(obj.x : ℝ), (obj.y : ℝ) - (obj.height : ℝ) * |(obj.scaleY : ℝ)|⟩])
    ∧ (obj.rotationDeg = 270 → getRotatedCorners obj 0
        = [⟨(obj.x : ℝ), (obj.y : ℝ)⟩,
           ⟨(obj.x : ℝ), (obj.y : ℝ) - (obj.width : ℝ) * |(obj.scaleX : ℝ)|⟩,
           ⟨(obj.x : ℝ) + (obj.height : ℝ) * |(obj.scaleY : ℝ)|,
             (obj.y : ℝ) - (obj.width : ℝ) * |(obj.scaleX : ℝ)|⟩,
           ⟨(obj.x : ℝ) + (obj.height : ℝ) * |(obj.scaleY : ℝ)|, (obj.y : ℝ)⟩]) := by
  refine ⟨?_, ?_, ?_, ?_, ?_⟩
  · unfold getRotatedCorners
    simp only [List.map_cons, List.map_nil, List.cons.injEq, Pt.mk.injEq, and_true,
      true_and]
    refine ⟨⟨?_, ?_⟩, ⟨?_, ?_⟩, ⟨?_, ?_⟩⟩ <;> ring
  · intro hrot
    have hrad : ((obj.rotationDeg : ℚ) : ℝ) * Real.pi / 180 = 0 := by
      rw [hrot]
      push_cast
      ring
    unfold getRotatedCorners
    rw [hrad]
    simp only [Real.cos_zero, Real.sin_zero, List.map_cons, List.map_nil,
      List.cons.injEq, Pt.mk.injEq, and_true]
    refine ⟨⟨?_, ?_⟩, ⟨?_, ?_⟩, ⟨?_, ?_⟩, ⟨?_, ?_⟩⟩ <;> (push_cast; ring)
  · intro hrot
    have hrad : ((obj.rotationDeg : ℚ) : ℝ) * Real.pi / 180 = Real.pi / 2 := by
      rw [hrot]
      push_cast
      ring
    unfold getRotatedCorners
    rw [hrad]
    simp only [Real.cos_pi_div_two, Real.sin_pi_div_two, List.map_cons, List.map_nil,
      List.cons.injEq, Pt.mk.injEq, and_true]
    refine ⟨⟨?_, ?_⟩, ⟨?_, ?_⟩, ⟨?_, ?_⟩, ⟨?_, ?_⟩⟩ <;> (push_cast; ring)
  · intro hrot
    have hrad : ((obj.rotationDeg : ℚ) : ℝ) * Real.pi / 180 = Real.pi := by
      rw [hrot]
      push_cast
      ring
    unfold getRotatedCorners
    rw [hrad]
    simp only [Real.cos_pi, Real.sin_pi, List.map_cons, List.map_nil,
      List.cons.injEq, Pt.mk.injEq, and_true]
    refine ⟨⟨?_, ?_⟩, ⟨?_, ?_⟩, ⟨?_, ?_⟩, ⟨?_, ?_⟩⟩ <;> (push_cast; ring)
  · intro hrot
    have hrad : ((obj.rotationDeg : ℚ) : ℝ) * Real.pi / 180 = Real.pi + Real.pi / 2 := by
      rw [hrot]
      push_cast
      ring
    unfold getRotatedCorners
    rw [hrad]
    simp only [Real.cos_add, Real.sin_add, Real.cos_pi, Real.sin_pi,
      Real.cos_pi_div_two, Real.sin_pi_div_two, List.map_cons, List.map_nil,
      List.cons.injEq, Pt.mk.injEq, and_true]
    refine ⟨⟨?_, ?_⟩, ⟨?_, ?_⟩, ⟨?_, ?_⟩, ⟨?_, ?_⟩⟩ <;> (push_cast; ring)

/-- A 2-wide, 1-tall object rotated by 90 degrees at the origin. -/
def rotDemoObj : DesignObject :=
  { demoObj with id := "r", width := 2, height := 1, rotationDeg := 90 }

lemma getRotatedCorners_rotDemoObj :
    getRotatedCorners rotDemoObj 0 = [⟨0, 0⟩, ⟨0, 2⟩, ⟨-1, 2⟩, ⟨-1, 0⟩] := by
  have hrad : ((rotDemoObj.rotationDeg : ℚ) : ℝ) * Real.pi / 180 = Real.pi / 2 := by
    show ((90 : ℚ) : ℝ) * Real.pi / 180 = Real.pi / 2
    push_cast
    ring
  unfold getRotatedCorners
  rw [hrad]
  norm_num [rotDemoObj, demoObj, Real.cos_pi_div_two, Real.sin_pi_div_two,
    Pt.mk.injEq]

lemma specCenterRotatedCorners_rotDemoObj :
    specCenterRotatedCorners rotDemoObj 0
      = [⟨3 / 2, -(1 / 2)⟩, ⟨3 / 2, 3 / 2⟩, ⟨1 / 2, 3 / 2⟩, ⟨1 / 2, -(1 / 2)⟩] := by
  have hrad : ((rotDemoObj.rotationDeg : ℚ) : ℝ) * Real.pi / 180 = Real.pi / 2 := by
    show ((90 : ℚ) : ℝ) * Real.pi / 180 = Real.pi / 2
    push_cast
    ring
  unfold specCenterRotatedCorners
  rw [hrad]
  norm_num [rotDemoObj, demoObj, Real.cos_pi_div_two, Real.sin_pi_div_two,
    Pt.mk.injEq]

/-- C2, counterexample to the original claim: for a 2-by-1 object rotated 90
degrees with zero buffer, the corners the code returns are not the corners of
the rectangle rotated about the object's own center. -/
theorem c2_counterexample :
    getRotatedCorners rotDemoObj 0 ≠ specCenterRotatedCorners rotDemoObj 0 := by
  rw [getRotatedCorners_rotDemoObj, specCenterRotatedCorners_rotDemoObj]
  intro h
  norm_num [Pt.mk.injEq] at h

/-- C2, witness: the amended 90-degree corner formula evaluated on the
2-by-1 demo object. -/
theorem c2_witness :
    rotDemoObj.rotationDeg = 90
    ∧ getRotatedCorners rotDemoObj 0
        = [⟨(rotDemoObj.x : ℝ), (rotDemoObj.y : ℝ)⟩,
           ⟨(rotDemoObj.x : ℝ),
             (rotDemoObj.y : ℝ) + (rotDemoObj.width : ℝ) * |(rotDemoObj.scaleX : ℝ)|⟩,
           ⟨(rotDemoObj.x : ℝ) - (rotDemoObj.height : ℝ) * |(rotDemoObj.scaleY : ℝ)|,
             (rotDemoObj.y : ℝ) + (rotDemoObj.width : ℝ) * |(rotDemoObj.scaleX : ℝ)|⟩,
           ⟨(rotDemoObj.x : ℝ) - (rotDemoObj.height : ℝ) * |(rotDemoObj.scaleY : ℝ)|,
             (rotDemoObj.y : ℝ)⟩] :=
  ⟨rfl, (c2_oriented_corners rotDemoObj 0).2.2.1 rfl⟩

end GangSheet
